import Mathlib

/-!
Verification of the task-lifecycle core of the llm-task-orchestrator backend.

The definitions below are a shallow embedding of the Python source:
`backend/app/jobs.py` (the Executor entry point `execute_task`),
`backend/app/crud.py` (`_initial_status`, `create_task`, `cancel_task`),
`backend/app/main.py` (`api_create_task`, `api_retry_task`), and
`backend/app/scheduler.py` (`claim_and_enqueue_due_tasks`).

Timestamps are modelled as `Nat` (absolute UTC instants; `crud._as_utc`
normalization is the identity on absolute instants).  The relational store
holds at most one row per task id; the Executor model takes the task's row
and an environment describing the generation outcome, the clock values, the
concurrent cancellations committed between the Executor's store operations,
and whether a store commit raises during failure handling.
-/

namespace Orchestrator

/-- Task lifecycle states, from `backend/app/models.py` (`TaskStatus`). -/
inductive TaskStatus where
  | scheduled
  | queued
  | running
  | completed
  | failed
  | cancelled
  deriving DecidableEq

/-- A task row, from `backend/app/models.py` (`Task`).  `attempts` and
`max_attempts` are optional because `jobs.py` defensively handles missing
values (`task.attempts or 0`, `task.max_attempts if ... is not None else 3`). -/
structure Task where
  id : Nat
  name : String
  prompt : String
  status : TaskStatus
  scheduled_for : Option Nat
  created_at : Nat
  started_at : Option Nat
  finished_at : Option Nat
  output : Option String
  error : Option String
  attempts : Option Nat
  max_attempts : Option Nat
  parent_task_id : Option Nat
  llm_provider : Option String
  llm_model : Option String
  latency_ms : Option Nat
  deriving DecidableEq

/-- The terminal-status test used at the top of `jobs.execute_task` and in
`crud.cancel_task`: completed, failed or cancelled. -/
def isTerminal (s : TaskStatus) : Bool :=
  match s with
  | TaskStatus.completed => true
  | TaskStatus.failed => true
  | TaskStatus.cancelled => true
  | _ => false

/-- Outcome of one call to the generation capability `llm.generate`:
`ok` with the returned text, or `err` with the message of the raised
exception. -/
inductive GenOutcome where
  | ok : String → GenOutcome
  | err : String → GenOutcome
  deriving DecidableEq

/-- Environment of one `execute_task` invocation: the generation outcome
(`GenOutcome.err` models `llm.generate` raising), the provider metadata, the
clock values, which of the Executor's two re-reads observe a concurrently
committed cancellation (and whether that concurrent cancel also stamped
`finished_at`, as `crud.cancel_task` does), and whether a store commit raises
while the failure handler runs. -/
structure ExecEnv where
  gen : GenOutcome
  provider : String
  modelName : Option String
  tNow : Nat
  tStart : Nat
  tEnd : Nat
  cancel1 : Bool
  cancel1Stamps : Bool
  tCancel1 : Nat
  cancel2 : Bool
  cancel2Stamps : Bool
  tCancel2 : Nat
  handlerCommitFails : Bool
  deriving DecidableEq

/-- Result of one `execute_task` invocation: the task's row after the call,
the ids re-enqueued on the Dispatch channel, how many times the generation
capability was invoked, and whether an exception escaped the entry point. -/
structure ExecResult where
  store : Option Task
  enqueued : List Nat
  genCalls : Nat
  raised : Bool
  deriving DecidableEq

/-- The `task.finished_at = task.finished_at or now` idiom of `jobs.py`. -/
def stampFinished (tc : Nat) (t : Task) : Task :=
  { t with finished_at := some (t.finished_at.getD tc) }

/-- The queued-to-running claim of `jobs.execute_task` (lines 64-70):
increment attempts, set status running, clear error, set `started_at` only
if it was null. -/
def claimRunning (tNow : Nat) (t : Task) : Task :=
  { t with
    attempts := some (t.attempts.getD 0 + 1)
    status := TaskStatus.running
    error := none
    started_at := some (t.started_at.getD tNow) }

/-- A cancellation committed by another actor between two of the Executor's
store operations.  `stamps = true` is the system cancel op
(`crud.cancel_task`: also stamps `finished_at`); `stamps = false` is a raw
status write (as in the repository's mid-run cancellation test). -/
def concurrentCancel (stamps : Bool) (tc : Nat) (t : Task) : Task :=
  if isTerminal t.status then t
  else
    { t with
      status := TaskStatus.cancelled
      finished_at := if stamps then some (t.finished_at.getD tc) else t.finished_at }

/-- The success commit of `jobs.execute_task` (lines 102-109). -/
def completeSuccess (provider : String) (modelName : Option String)
    (tStart tEnd : Nat) (text : String) (t : Task) : Task :=
  { t with
    output := some text
    error := none
    llm_provider := some provider
    llm_model := modelName
    latency_ms := some (tEnd - tStart)
    finished_at := some tEnd
    status := TaskStatus.completed }

/-- The `except Exception` block of `jobs.execute_task` (lines 111-145).
The re-read at line 116 is `Session.get` on the same session: an
identity-map hit returning the session's unexpired row object as of the
line-71 refresh (`sess`) — no fresh row data is read, so a cancellation
committed while generation was in flight is NOT observed here, and the
not-found guard at lines 117-118 cannot fire on this path.  On a cancelled
session row only the `finished_at` stamp is committed; otherwise the error
text and `finished_at` are recorded and the task is re-queued and
re-enqueued (attempts remain) or marked failed — the commit overwriting the
current store row (`cur`).  The block is wrapped in `try ... finally: pass`,
which — lacking an `except` clause — does NOT suppress an exception raised
by the handler body itself: if a store commit raises here, the store keeps
`cur` and the exception escapes the entry point (`raised = true`). -/
def executeFailureHandler (env : ExecEnv) (e : String) (gcalls : Nat)
    (sess cur : Task) : ExecResult :=
  if sess.status = TaskStatus.cancelled then
    if env.handlerCommitFails then ⟨some cur, [], gcalls, true⟩
    else ⟨some (stampFinished env.tNow sess), [], gcalls, false⟩
  else
    if (sess.attempts.getD 0) < (sess.max_attempts.getD 3) then
      if env.handlerCommitFails then ⟨some cur, [], gcalls, true⟩
      else
        ⟨some { sess with
                  error := some e
                  finished_at := some env.tNow
                  status := TaskStatus.queued },
         [sess.id], gcalls, false⟩
    else
      if env.handlerCommitFails then ⟨some cur, [], gcalls, true⟩
      else
        ⟨some { sess with
                  error := some e
                  finished_at := some env.tNow
                  status := TaskStatus.failed },
         [], gcalls, false⟩

/-- The Executor entry point, `backend/app/jobs.py` `execute_task`:
missing row: return; terminal row: return unchanged (this also catches
cancelled rows, so the later cancelled-entry stamp at lines 56-59 is dead
code); scheduled row: return unchanged; otherwise claim queued-to-running
and refresh (line 71 — a concurrent cancel may be observed), then run
generation.  When generation returns, the line-91 `db.refresh` is a fresh
read, so a mid-generation cancel (`cancel2`) is observed and aborts the
success commit.  When generation raises, there is no fresh read: the
failure handler receives the stale session row (`t2`); a mid-generation
cancel sits in the store (`t3`) unobserved and is overwritten by the
handler's commit (it survives only if that commit itself fails). -/
def execute_task (env : ExecEnv) (store : Option Task) : ExecResult :=
  match store with
  | none => ⟨none, [], 0, false⟩
  | some task =>
    if isTerminal task.status then ⟨some task, [], 0, false⟩
    else if task.status = TaskStatus.scheduled then ⟨some task, [], 0, false⟩
    else if task.status = TaskStatus.cancelled then
      ⟨some (stampFinished env.tNow task), [], 0, false⟩
    else
      let t1 := claimRunning env.tNow task
      let t2 := if env.cancel1 then concurrentCancel env.cancel1Stamps env.tCancel1 t1 else t1
      if t2.status = TaskStatus.cancelled then
        ⟨some (stampFinished env.tNow t2), [], 0, false⟩
      else
        match env.gen with
        | GenOutcome.ok text =>
          let t3 := if env.cancel2 then concurrentCancel env.cancel2Stamps env.tCancel2 t2 else t2
          if t3.status = TaskStatus.cancelled then
            ⟨some (stampFinished env.tEnd t3), [], 1, false⟩
          else
            ⟨some (completeSuccess env.provider env.modelName env.tStart env.tEnd text t3),
             [], 1, false⟩
        | GenOutcome.err e =>
          let t3 := if env.cancel2 then concurrentCancel env.cancel2Stamps env.tCancel2 t2 else t2
          executeFailureHandler env e 1 t2 t3

/-- The cancel operation, `backend/app/crud.py` `cancel_task`: terminal rows
are returned unchanged; otherwise status becomes cancelled and `finished_at`
is stamped if unset. -/
def cancel_task (tNow : Nat) (t : Task) : Task :=
  if isTerminal t.status then t
  else { t with status := TaskStatus.cancelled, finished_at := some (t.finished_at.getD tNow) }

/-- Result of the retry endpoint: the updated task plus the dispatched ids,
or an HTTP error status. -/
inductive RetryResult where
  | ok : Task → List Nat → RetryResult
  | httpError : Nat → RetryResult
  deriving DecidableEq

/-- The retry endpoint, `backend/app/main.py` `api_retry_task`: only failed
tasks may be retried (409 otherwise); resets attempts and all result fields,
optionally overrides `max_attempts`, re-queues and enqueues once. -/
def api_retry_task (payloadMax : Option Nat) (t : Task) : RetryResult :=
  if t.status = TaskStatus.failed then
    let t2 :=
      { t with
        status := TaskStatus.queued
        attempts := some 0
        max_attempts := match payloadMax with | some m => some m | none => t.max_attempts
        error := none
        output := none
        started_at := none
        finished_at := none
        llm_provider := none
        llm_model := none
        latency_ms := none }
    RetryResult.ok t2 [t2.id]
  else RetryResult.httpError 409

/-- Initial status at creation, `backend/app/crud.py` `_initial_status`:
queued if `scheduled_for` is null or not in the future, scheduled otherwise. -/
def initial_status (now : Nat) (scheduled_for : Option Nat) : TaskStatus :=
  match scheduled_for with
  | none => TaskStatus.queued
  | some t => if now < t then TaskStatus.scheduled else TaskStatus.queued

/-- Task creation, `backend/app/crud.py` `create_task` (DB defaults:
attempts 0, max_attempts 3, all result fields null). -/
def create_task (now tid : Nat) (nm pr : String) (scheduled_for : Option Nat) : Task :=
  { id := tid
    name := nm
    prompt := pr
    status := initial_status now scheduled_for
    scheduled_for := scheduled_for
    created_at := now
    started_at := none
    finished_at := none
    output := none
    error := none
    attempts := some 0
    max_attempts := some 3
    parent_task_id := none
    llm_provider := none
    llm_model := none
    latency_ms := none }

/-- The creation endpoint, `backend/app/main.py` `api_create_task`: create,
then dispatch exactly the tasks created in status queued. -/
def api_create_task (now tid : Nat) (nm pr : String) (scheduled_for : Option Nat) :
    Task × List Nat :=
  let t := create_task now tid nm pr scheduled_for
  (t, if t.status = TaskStatus.queued then [t.id] else [])

/-- Scheduler batch size, `backend/app/scheduler.py` `BATCH_SIZE`. -/
def BATCH_SIZE : Nat := 10

/-- The WHERE clause of the scheduler's claim query
(`backend/app/scheduler.py`, lines 90-98): status is scheduled,
`scheduled_for` is not null and `scheduled_for <= now`. -/
def dueWhere (now : Nat) (t : Task) : Bool :=
  if t.status = TaskStatus.scheduled then
    match t.scheduled_for with
    | none => false
    | some v => decide (v ≤ now)
  else false

/-- Insertion step for ordering selected rows by `scheduled_for` ascending
(the claim query's ORDER BY). -/
def insertByTime (t : Task) : List Task → List Task
  | [] => [t]
  | u :: us =>
    if t.scheduled_for.getD 0 ≤ u.scheduled_for.getD 0 then t :: u :: us
    else u :: insertByTime t us

/-- Sort by `scheduled_for` ascending (the claim query's ORDER BY). -/
def sortByTime : List Task → List Task
  | [] => []
  | t :: ts => insertByTime t (sortByTime ts)

/-- The SELECT of one scheduler tick: filter by the WHERE clause, order by
`scheduled_for` ascending, take at most `BATCH_SIZE` rows. -/
def tickSelect (now : Nat) (store : List Task) : List Task :=
  (sortByTime (store.filter (dueWhere now))).take BATCH_SIZE

/-- The claim loop of one scheduler tick (`scheduler.py`, lines 102-111):
for each selected row, observed at flip time with any status mutation `muta`
another actor committed since the select, re-verify the status is still
scheduled and only then flip to queued; return the rows as committed and the
claimed ids in loop order. -/
def tickClaim (muta : Nat → Option TaskStatus) : List Task → List Task × List Nat
  | [] => ([], [])
  | t :: ts =>
    let cur := { t with status := (muta t.id).getD t.status }
    let rest := tickClaim muta ts
    if cur.status = TaskStatus.scheduled then
      ({ cur with status := TaskStatus.queued } :: rest.1, t.id :: rest.2)
    else (cur :: rest.1, rest.2)

/-- An externally visible action of one scheduler tick, in order: the commit
of the claim transaction, then the Dispatch-channel enqueues. -/
inductive SchedEvent where
  | commit : SchedEvent
  | enqueue : Nat → SchedEvent
  deriving DecidableEq

/-- Result of one scheduler tick: the selected rows as committed, the
claimed ids, and the ordered external actions. -/
structure TickResult where
  claimedRows : List Task
  dispatched : List Nat
  events : List SchedEvent
  deriving DecidableEq

/-- One scheduler tick, `backend/app/scheduler.py`
`claim_and_enqueue_due_tasks`: select due scheduled rows, re-verify and flip
each to queued, commit the claim transaction, and only afterwards enqueue
the claimed ids (the enqueue loop runs after `db.commit()`, outside the
transaction). -/
def claim_and_enqueue_due_tasks (now : Nat) (muta : Nat → Option TaskStatus)
    (store : List Task) : TickResult :=
  let sel := tickSelect now store
  let res := tickClaim muta sel
  { claimedRows := res.1
    dispatched := res.2
    events := SchedEvent.commit :: res.2.map SchedEvent.enqueue }

/-- The spec's notion of a due scheduled task: `scheduled_for` in the past
or absent. -/
def dueSpec (now : Nat) (t : Task) : Prop :=
  t.scheduled_for = none ∨ ∃ v, t.scheduled_for = some v ∧ v ≤ now

/-- The spec's stated store invariant: `finished_at` is non-null iff the
status is terminal. -/
def finishedInvFull (t : Task) : Prop :=
  t.finished_at ≠ none ↔ isTerminal t.status = true

/-- The direction of the finished-at invariant the Executor actually
maintains: a terminal status implies `finished_at` is non-null. -/
def finishedInvWeak (t : Task) : Prop :=
  isTerminal t.status = true → t.finished_at ≠ none

/-- Local state of one executor thread in the interleaving model of
`execute_task`: a program counter locating the next store operation, and the
thread's in-session copy of the row.  Program counters: 0 read the row,
1 entry checks plus commit of the running claim, 2 refresh, 3 cancellation
check then generation, 4 refresh, 5 final cancellation check then success
commit, 6 done. -/
structure WorkerState where
  pc : Nat
  loc : Option Task
  deriving DecidableEq

/-- Shared state of two executor threads racing on the same task row:
the row as committed in the store, both thread states, and the number of
invocations of the generation capability so far. -/
structure RaceState where
  row : Task
  w1 : WorkerState
  w2 : WorkerState
  gens : Nat
  deriving DecidableEq

/-- One atomic step of an executor thread, following the success path of
`jobs.execute_task` decomposed at its store operations.  The claim commit at
pc 1 is exactly the code's: the entry checks run on the thread's possibly
stale copy, and the UPDATE is unconditional (no row lock, no compare-and-set
on status). -/
def workerStep (gtext : String) (tNow : Nat) (row : Task) (w : WorkerState)
    (gens : Nat) : Task × WorkerState × Nat :=
  match w.pc, w.loc with
  | 0, _ => (row, ⟨1, some row⟩, gens)
  | 1, some t =>
    if isTerminal t.status then (row, ⟨6, some t⟩, gens)
    else if t.status = TaskStatus.scheduled then (row, ⟨6, some t⟩, gens)
    else if t.status = TaskStatus.cancelled then
      (stampFinished tNow t, ⟨6, some (stampFinished tNow t)⟩, gens)
    else
      (claimRunning tNow t, ⟨2, some (claimRunning tNow t)⟩, gens)
  | 2, _ => (row, ⟨3, some row⟩, gens)
  | 3, some t =>
    if t.status = TaskStatus.cancelled then
      (stampFinished tNow t, ⟨6, some (stampFinished tNow t)⟩, gens)
    else (row, ⟨4, some t⟩, gens + 1)
  | 4, _ => (row, ⟨5, some row⟩, gens)
  | 5, some t =>
    if t.status = TaskStatus.cancelled then
      (stampFinished tNow t, ⟨6, some (stampFinished tNow t)⟩, gens)
    else
      let t2 := completeSuccess ("MockLLMClient") (some ("mock-llm")) tNow tNow gtext t
      (t2, ⟨6, some t2⟩, gens)
  | _, _ => (row, w, gens)

/-- Run one step of the chosen thread (`true` picks the first). -/
def raceStep (gtext : String) (tNow : Nat) (s : RaceState) (pick : Bool) : RaceState :=
  if pick then
    let r := workerStep gtext tNow s.row s.w1 s.gens
    { s with row := r.1, w1 := r.2.1, gens := r.2.2 }
  else
    let r := workerStep gtext tNow s.row s.w2 s.gens
    { s with row := r.1, w2 := r.2.1, gens := r.2.2 }

/-- Run an interleaving schedule of the two executor threads. -/
def runRace (gtext : String) (tNow : Nat) (sched : List Bool) (s : RaceState) : RaceState :=
  sched.foldl (raceStep gtext tNow) s

/-- A benign Executor environment: generation succeeds, no concurrent
cancellation, the store never fails. -/
def baseEnv : ExecEnv :=
  { gen := GenOutcome.ok ("text")
    provider := ("MockLLMClient")
    modelName := some ("mock-llm")
    tNow := 5
    tStart := 6
    tEnd := 7
    cancel1 := false
    cancel1Stamps := true
    tCancel1 := 5
    cancel2 := false
    cancel2Stamps := true
    tCancel2 := 6
    handlerCommitFails := false }

/-- Environment in which the generation call raises. -/
def genFailEnv : ExecEnv := { baseEnv with gen := GenOutcome.err ("boom") }

/-- Environment in which the generation call raises and the store commit
inside the failure handler raises as well. -/
def commitFailEnv : ExecEnv := { genFailEnv with handlerCommitFails := true }

/-- Environment in which a cancel is committed between the running claim and
the first re-read. -/
def cancel1Env : ExecEnv := { baseEnv with cancel1 := true }

/-- Environment in which a cancel is committed while a successful generation
call is in flight. -/
def cancel2Env : ExecEnv := { baseEnv with cancel2 := true }

/-- Environment in which a cancel is committed while generation is in
flight and the generation call raises. -/
def cancel2FailEnv : ExecEnv := { genFailEnv with cancel2 := true }

/-- A fresh queued task, as created by `create_task` with no
`scheduled_for`. -/
def freshQueuedTask : Task :=
  { id := 1
    name := ("n")
    prompt := ("p")
    status := TaskStatus.queued
    scheduled_for := none
    created_at := 0
    started_at := none
    finished_at := none
    output := none
    error := none
    attempts := some 0
    max_attempts := some 3
    parent_task_id := none
    llm_provider := none
    llm_model := none
    latency_ms := none }

/-- A cancelled task whose `finished_at` was never stamped. -/
def cancelledNoFinishTask : Task :=
  { freshQueuedTask with status := TaskStatus.cancelled }

/-- A cancelled task whose `finished_at` is stamped (as `cancel_task`
leaves it). -/
def cancelledFinishedTask : Task :=
  { freshQueuedTask with status := TaskStatus.cancelled, finished_at := some 4 }

/-- A failed task after exhausting its attempts. -/
def failedTask : Task :=
  { freshQueuedTask with
    status := TaskStatus.failed
    attempts := some 3
    error := some ("boom")
    started_at := some 2
    finished_at := some 4 }

/-- The row `api_retry_task` produces from `failedTask` with no override. -/
def failedTaskRetried : Task :=
  { failedTask with
    status := TaskStatus.queued
    attempts := some 0
    error := none
    output := none
    started_at := none
    finished_at := none
    llm_provider := none
    llm_model := none
    latency_ms := none }

/-- The row the Executor's failure handler commits when it re-queues
`freshQueuedTask` after a failed generation at clock 5. -/
def retryRequeuedRow : Task :=
  { claimRunning 5 freshQueuedTask with
    error := some ("boom")
    finished_at := some 5
    status := TaskStatus.queued }

/-- A due scheduled row for the scheduler-tick witness. -/
def dueScheduledRow : Task :=
  { freshQueuedTask with id := 7, status := TaskStatus.scheduled, scheduled_for := some 3 }

/-- One-row store for the scheduler-tick witness. -/
def schedStore : List Task := [dueScheduledRow]

/-- No concurrent status mutation between the scheduler's select and flip. -/
def noMuta : Nat → Option TaskStatus := fun _ => none

/-- Initial state of the two-executor race: both threads about to read the
same fresh queued row. -/
def raceInit : RaceState :=
  { row := freshQueuedTask
    w1 := { pc := 0, loc := none }
    w2 := { pc := 0, loc := none }
    gens := 0 }

/-- The interleaving in which both executors read the queued row before
either commits the running claim, then each runs to completion. -/
def raceSched : List Bool :=
  [true, false, true, false, true, true, true, true, false, false, false, false]

end Orchestrator

namespace Orchestrator

theorem mem_of_mem_insertByTime {u t : Task} {l : List Task}
    (h : u ∈ insertByTime t l) : u = t ∨ u ∈ l := by
  induction l with
  | nil => simpa [insertByTime] using h
  | cons v vs ih =>
    rw [insertByTime] at h
    split at h
    · rcases List.mem_cons.mp h with h2 | h2
      · exact Or.inl h2
      · exact Or.inr h2
    · rcases List.mem_cons.mp h with h2 | h2
      · exact Or.inr (by simp [h2])
      · rcases ih h2 with h3 | h3
        · exact Or.inl h3
        · exact Or.inr (by simp [h3])

theorem mem_of_mem_sortByTime {u : Task} {l : List Task}
    (h : u ∈ sortByTime l) : u ∈ l := by
  induction l with
  | nil => simp [sortByTime] at h
  | cons v vs ih =>
    rw [sortByTime] at h
    rcases mem_of_mem_insertByTime h with h2 | h2
    · simp [h2]
    · exact List.mem_cons_of_mem v (ih h2)

theorem dueWhere_spec {now : Nat} {t : Task} (h : dueWhere now t = true) :
    t.status = TaskStatus.scheduled ∧ dueSpec now t := by
  unfold dueWhere at h
  split at h
  · rename_i hs
    refine ⟨hs, ?_⟩
    unfold dueSpec
    cases hsf : t.scheduled_for with
    | none => exact Or.inl rfl
    | some v =>
      rw [hsf] at h
      exact Or.inr ⟨v, rfl, by simpa using h⟩
  · exact absurd h (by simp)

/-- C10: invoking the Executor entry point on a task whose status is
scheduled is a pure no-op: the row is unchanged, the generation capability
is not invoked, nothing is re-enqueued, and nothing is raised. -/
theorem scheduled_execute_noop (env : ExecEnv) (t : Task)
    (h : t.status = TaskStatus.scheduled) :
    execute_task env (some t) = ⟨some t, [], 0, false⟩ := by
  simp [execute_task, h, isTerminal]

/-- Witness for C10 at a concrete scheduled task. -/
theorem scheduled_execute_noop_witness :
    execute_task baseEnv (some { freshQueuedTask with status := TaskStatus.scheduled }) =
      ⟨some { freshQueuedTask with status := TaskStatus.scheduled }, [], 0, false⟩ :=
  scheduled_execute_noop baseEnv { freshQueuedTask with status := TaskStatus.scheduled } rfl

/-- C2: the Executor's queued-to-running transition (the `claimRunning`
commit inside `execute_task`) increments attempts by one (missing attempts
read as 0), sets status running, clears error, sets `started_at` only when
it was null (so it is set exactly once, on the first transition into
running), and changes no other field. -/
theorem claim_running_effects (tNow : Nat) (t : Task)
    (h : t.status = TaskStatus.queued) :
    (claimRunning tNow t).attempts = some (t.attempts.getD 0 + 1) ∧
    (claimRunning tNow t).status = TaskStatus.running ∧
    (claimRunning tNow t).error = none ∧
    (claimRunning tNow t).started_at = some (t.started_at.getD tNow) ∧
    (∀ s, t.started_at = some s → (claimRunning tNow t).started_at = some s) ∧
    (claimRunning tNow t).finished_at = t.finished_at ∧
    (claimRunning tNow t).output = t.output ∧
    (claimRunning tNow t).max_attempts = t.max_attempts ∧
    (claimRunning tNow t).scheduled_for = t.scheduled_for ∧
    (claimRunning tNow t).created_at = t.created_at ∧
    (claimRunning tNow t).llm_provider = t.llm_provider ∧
    (claimRunning tNow t).llm_model = t.llm_model ∧
    (claimRunning tNow t).latency_ms = t.latency_ms ∧
    (claimRunning tNow t).id = t.id ∧
    (claimRunning tNow t).name = t.name ∧
    (claimRunning tNow t).prompt = t.prompt ∧
    (claimRunning tNow t).parent_task_id = t.parent_task_id := by
  refine ⟨rfl, rfl, rfl, rfl, ?_, rfl, rfl, rfl, rfl, rfl, rfl, rfl, rfl, rfl, rfl, rfl, rfl⟩
  intro s hs
  simp [claimRunning, hs]

/-- Witness for C2 at a concrete queued task. -/
theorem claim_running_effects_witness :
    (claimRunning 5 freshQueuedTask).attempts = some 1 ∧
    (claimRunning 5 freshQueuedTask).status = TaskStatus.running ∧
    (claimRunning 5 freshQueuedTask).started_at = some 5 := by
  have h := claim_running_effects 5 freshQueuedTask rfl
  exact ⟨h.1, h.2.1, h.2.2.2.1⟩

/-- C9: at creation the initial status is queued iff the (UTC-normalized)
`scheduled_for` is null or not in the future, and scheduled otherwise; a
task created queued is dispatched exactly once, a task created scheduled is
dispatched zero times. -/
theorem create_task_initial_status_dispatch (now tid : Nat) (nm pr : String)
    (sf : Option Nat) :
    ((api_create_task now tid nm pr sf).1.status = TaskStatus.queued ↔
       (sf = none ∨ ∃ v, sf = some v ∧ v ≤ now)) ∧
    ((api_create_task now tid nm pr sf).1.status = TaskStatus.scheduled ↔
       (∃ v, sf = some v ∧ now < v)) ∧
    ((api_create_task now tid nm pr sf).1.status = TaskStatus.queued →
       (api_create_task now tid nm pr sf).2 = [tid]) ∧
    ((api_create_task now tid nm pr sf).1.status = TaskStatus.scheduled →
       (api_create_task now tid nm pr sf).2 = []) := by
  cases sf with
  | none => simp [api_create_task, create_task, initial_status]
  | some v =>
    by_cases hv : now < v
    · simp [api_create_task, create_task, initial_status, hv, Nat.not_le.mpr hv]
    · simp [api_create_task, create_task, initial_status, hv, Nat.not_lt.mp hv]

/-- Witness for C9: creating with no `scheduled_for` yields queued and one
dispatch. -/
theorem create_task_initial_status_dispatch_witness :
    (api_create_task 5 1 ("n") ("p") none).2 = [1] := by
  have h := create_task_initial_status_dispatch 5 1 ("n") ("p") none
  exact h.2.2.1 rfl

theorem tickClaim_ids (muta : Nat → Option TaskStatus) (l : List Task) :
    (tickClaim muta l).2 =
      (l.filter
        (fun t => decide ((muta t.id).getD t.status = TaskStatus.scheduled))).map Task.id := by
  induction l with
  | nil => simp [tickClaim]
  | cons t ts ih =>
    rw [tickClaim]
    by_cases hs : (muta t.id).getD t.status = TaskStatus.scheduled
    · simp [hs, List.filter_cons, ih]
    · simp [hs, List.filter_cons, ih]

/-- C8: one scheduler tick selects at most `BATCH_SIZE` rows, every selected
row is a scheduled task that is due in the spec's sense (`scheduled_for` in
the past or absent), a selected row is flipped to queued (and its id
dispatched) exactly when its status re-verifies as still scheduled at flip
time, and the externally visible actions are the claim-transaction commit
followed by the enqueues — no enqueue inside the transaction. -/
theorem scheduler_tick_claims (now : Nat) (muta : Nat → Option TaskStatus)
    (store : List Task) :
    (tickSelect now store).length ≤ BATCH_SIZE ∧
    (∀ t, t ∈ tickSelect now store → t.status = TaskStatus.scheduled ∧ dueSpec now t) ∧
    ((claim_and_enqueue_due_tasks now muta store).dispatched =
       ((tickSelect now store).filter
         (fun t => decide ((muta t.id).getD t.status = TaskStatus.scheduled))).map Task.id) ∧
    ((claim_and_enqueue_due_tasks now muta store).events =
       SchedEvent.commit ::
         ((claim_and_enqueue_due_tasks now muta store).dispatched.map SchedEvent.enqueue)) := by
  refine ⟨?_, ?_, ?_, rfl⟩
  · unfold tickSelect
    rw [List.length_take]
    exact Nat.min_le_left _ _
  · intro t ht
    unfold tickSelect at ht
    have h1 : t ∈ sortByTime (store.filter (dueWhere now)) :=
      List.take_subset BATCH_SIZE _ ht
    have h2 : t ∈ store.filter (dueWhere now) := mem_of_mem_sortByTime h1
    exact dueWhere_spec (List.mem_filter.mp h2).2
  · exact tickClaim_ids muta (tickSelect now store)

/-- Witness for C8 at a one-row store containing a due scheduled task. -/
theorem scheduler_tick_claims_witness :
    dueScheduledRow.status = TaskStatus.scheduled ∧
    dueSpec 5 dueScheduledRow ∧
    (claim_and_enqueue_due_tasks 5 noMuta schedStore).dispatched = [7] ∧
    (claim_and_enqueue_due_tasks 5 noMuta schedStore).events =
      [SchedEvent.commit, SchedEvent.enqueue 7] := by
  have h := scheduler_tick_claims 5 noMuta schedStore
  refine ⟨(h.2.1 dueScheduledRow (by decide)).1, (h.2.1 dueScheduledRow (by decide)).2, ?_, ?_⟩
  · rw [h.2.2.1]
    decide
  · rw [h.2.2.2]
    rw [h.2.2.1]
    decide

/-- C5 counterexample: the explicit retry operation does leave a terminal
state — it transitions a failed task to queued (with a full reset), so
"no operation of the system transitions a terminal task to any other
status" is false as stated. -/
theorem retry_leaves_failed_state :
    isTerminal failedTask.status = true ∧
    api_retry_task none failedTask = RetryResult.ok failedTaskRetried [1] ∧
    failedTaskRetried.status = TaskStatus.queued := by
  decide

/-- C5 (amended): terminal states are absorbing for every operation except
the explicit retry op: the Executor entry point on a terminal task performs
no mutation, no dispatch, no generation call and returns the unchanged row;
the cancel op returns a terminal task unchanged; and the retry op rejects
completed and cancelled tasks with a 409 (only failed tasks leave a terminal
state, and only through retry). -/
theorem terminal_absorbing_except_retry :
    (∀ env t, isTerminal t.status = true →
       execute_task env (some t) = ⟨some t, [], 0, false⟩) ∧
    (∀ now t, isTerminal t.status = true → cancel_task now t = t) ∧
    (∀ p t, t.status = TaskStatus.completed ∨ t.status = TaskStatus.cancelled →
       api_retry_task p t = RetryResult.httpError 409) := by
  refine ⟨?_, ?_, ?_⟩
  · intro env t h
    simp [execute_task, h]
  · intro now t h
    simp [cancel_task, h]
  · intro p t h
    rcases h with h | h <;> simp [api_retry_task, h]

/-- Witness for C5 (amended) at concrete terminal tasks. -/
theorem terminal_absorbing_except_retry_witness :
    execute_task baseEnv (some cancelledFinishedTask) =
      ⟨some cancelledFinishedTask, [], 0, false⟩ ∧
    cancel_task 9 failedTask = failedTask ∧
    api_retry_task none cancelledFinishedTask = RetryResult.httpError 409 := by
  refine ⟨terminal_absorbing_except_retry.1 baseEnv cancelledFinishedTask (by decide),
    terminal_absorbing_except_retry.2.1 9 failedTask (by decide),
    terminal_absorbing_except_retry.2.2 none cancelledFinishedTask (Or.inr (by decide))⟩

/-- C6 is a code bug: the failure handler of `execute_task` is wrapped in
`try ... finally: pass`, which — lacking an `except` clause — does not
suppress an exception raised by the handler body, although the code's own
comments claim the exception is swallowed.  At the failing input (generation
raises and the store commit inside the handler raises too) the exception
escapes the entry point and the error is not persisted; with a healthy store
the same execution absorbs the error as the spec demands. -/
theorem handler_store_failure_propagates :
    (execute_task commitFailEnv (some freshQueuedTask)).raised = true ∧
    (execute_task commitFailEnv (some freshQueuedTask)).store.map Task.status =
      some TaskStatus.running ∧
    (execute_task commitFailEnv (some freshQueuedTask)).store.map Task.error =
      some none ∧
    (execute_task genFailEnv (some freshQueuedTask)).raised = false := by
  decide

/-- C1 counterexample: the Executor's first cancellation detection point
(entry, before the queued-to-running transition) does NOT stamp
`finished_at` when it is unset — the terminal-idempotency check at the top
of `execute_task` returns before the stamping branch (jobs.py lines 56-59,
which is dead code) is reached.  On a cancelled task with null
`finished_at`, the claimed "finished_at is set if unset" fails. -/
theorem cancelled_entry_leaves_finished_unset :
    cancelledNoFinishTask.status = TaskStatus.cancelled ∧
    cancelledNoFinishTask.finished_at = none ∧
    execute_task baseEnv (some cancelledNoFinishTask) =
      ⟨some cancelledNoFinishTask, [], 0, false⟩ := by
  decide

/-- C1 (amended): a cancellation is observed by the Executor only at the
detection points that actually re-read the row, and wherever it is observed
the success path is aborted.  At the entry detection point the execution is
a pure no-op — the row (including an unset `finished_at`) is left
untouched.  At the post-running-commit re-read, and — when generation
returns — at the post-generation re-read, the cancel is observed:
`finished_at` is stamped if unset, the status is never overwritten (in
particular never set to completed), attempts is not incremented beyond the
single entry increment, the output is not replaced, nothing is re-enqueued,
and nothing is raised.  When generation raises there is no post-generation
detection point: the handler's `Session.get` is an identity-map hit on the
stale running row, so a cancel committed mid-generation is not observed —
the retry/fail commit overwrites the cancelled status, and with attempts
remaining the task is re-queued and re-enqueued. -/
theorem cancellation_aborts_success_path :
    (∀ env t, t.status = TaskStatus.cancelled →
       execute_task env (some t) = ⟨some t, [], 0, false⟩) ∧
    (∀ env t, t.status = TaskStatus.queued → env.cancel1 = true →
       ((execute_task env (some t)).store.map Task.status = some TaskStatus.cancelled ∧
        (execute_task env (some t)).store.map Task.finished_at ≠ some none ∧
        (execute_task env (some t)).store.map Task.attempts =
          some (some (t.attempts.getD 0 + 1)) ∧
        (execute_task env (some t)).store.map Task.output = some t.output ∧
        (execute_task env (some t)).enqueued = [] ∧
        (execute_task env (some t)).genCalls = 0 ∧
        (execute_task env (some t)).raised = false)) ∧
    (∀ env t text, t.status = TaskStatus.queued → env.gen = GenOutcome.ok text →
       env.cancel1 = false → env.cancel2 = true →
       ((execute_task env (some t)).store.map Task.status = some TaskStatus.cancelled ∧
        (execute_task env (some t)).store.map Task.finished_at ≠ some none ∧
        (execute_task env (some t)).store.map Task.attempts =
          some (some (t.attempts.getD 0 + 1)) ∧
        (execute_task env (some t)).store.map Task.output = some t.output ∧
        (execute_task env (some t)).enqueued = [] ∧
        (execute_task env (some t)).raised = false)) ∧
    (∀ env t e, t.status = TaskStatus.queued → env.gen = GenOutcome.err e →
       env.cancel1 = false → env.cancel2 = true → env.handlerCommitFails = false →
       ((execute_task env (some t)).store.map Task.status ≠ some TaskStatus.cancelled ∧
        ((t.attempts.getD 0 + 1) < t.max_attempts.getD 3 →
           (execute_task env (some t)).store.map Task.status = some TaskStatus.queued ∧
           (execute_task env (some t)).enqueued = [t.id]) ∧
        (¬ (t.attempts.getD 0 + 1) < t.max_attempts.getD 3 →
           (execute_task env (some t)).store.map Task.status = some TaskStatus.failed ∧
           (execute_task env (some t)).enqueued = []))) := by
  refine ⟨?_, ?_, ?_, ?_⟩
  · intro env t h
    simp [execute_task, h, isTerminal]
  · intro env t hq hc1
    cases hst : env.cancel1Stamps <;>
      simp [execute_task, hq, hc1, hst, isTerminal, claimRunning, concurrentCancel,
        stampFinished]
  · intro env t text hq hg hc1 hc2
    cases hst : env.cancel2Stamps <;>
      simp [execute_task, hq, hg, hc1, hc2, hst, isTerminal, claimRunning,
        concurrentCancel, stampFinished]
  · intro env t e hq hg hc1 hc2 hcf
    by_cases hlt : (t.attempts.getD 0 + 1) < t.max_attempts.getD 3 <;>
      refine ⟨?_, ?_, ?_⟩ <;>
      simp [execute_task, executeFailureHandler, hq, hg, hc1, hc2, hcf, hlt, isTerminal,
        claimRunning, concurrentCancel, stampFinished]

/-- Witness for C1 (amended): entry detection on a stamped cancelled task, a
cancel committed right after the running claim, a mid-generation cancel
observed by the success path's re-read, and a mid-generation cancel missed
by the failure path (the task ends re-queued and re-enqueued). -/
theorem cancellation_aborts_success_path_witness :
    execute_task baseEnv (some cancelledFinishedTask) =
      ⟨some cancelledFinishedTask, [], 0, false⟩ ∧
    (execute_task cancel1Env (some freshQueuedTask)).store.map Task.status =
      some TaskStatus.cancelled ∧
    (execute_task cancel1Env (some freshQueuedTask)).enqueued = [] ∧
    (execute_task cancel2Env (some freshQueuedTask)).store.map Task.status =
      some TaskStatus.cancelled ∧
    (execute_task cancel2FailEnv (some freshQueuedTask)).store.map Task.status =
      some TaskStatus.queued ∧
    (execute_task cancel2FailEnv (some freshQueuedTask)).enqueued = [1] := by
  refine ⟨cancellation_aborts_success_path.1 baseEnv cancelledFinishedTask rfl,
    (cancellation_aborts_success_path.2.1 cancel1Env freshQueuedTask rfl rfl).1,
    (cancellation_aborts_success_path.2.1 cancel1Env freshQueuedTask rfl rfl).2.2.2.2.1,
    (cancellation_aborts_success_path.2.2.1 cancel2Env freshQueuedTask ("text")
      rfl rfl rfl rfl).1,
    ((cancellation_aborts_success_path.2.2.2 cancel2FailEnv freshQueuedTask ("boom")
      rfl rfl rfl rfl rfl).2.1 (by decide)).1,
    ((cancellation_aborts_success_path.2.2.2 cancel2FailEnv freshQueuedTask ("boom")
      rfl rfl rfl rfl rfl).2.1 (by decide)).2⟩

/-- C3: when the generation call fails on a task the Executor has claimed
(with no concurrent cancellation and a healthy store), the handler records
the error text and `finished_at`, then compares the already-incremented
attempts with `max_attempts` (missing `max_attempts` read as 3, missing
attempts as 0): with attempts remaining the task returns to queued and its
id is re-enqueued in the same execution (no delay or backoff), otherwise it
becomes failed and nothing is re-enqueued. -/
theorem failure_retry_decision (env : ExecEnv) (t : Task) (e : String)
    (hq : t.status = TaskStatus.queued) (hg : env.gen = GenOutcome.err e)
    (hc1 : env.cancel1 = false) (hc2 : env.cancel2 = false)
    (hcf : env.handlerCommitFails = false) :
    (claimRunning env.tNow t).attempts = some (t.attempts.getD 0 + 1) ∧
    ((t.attempts.getD 0 + 1) < t.max_attempts.getD 3 →
       execute_task env (some t) =
         ⟨some { claimRunning env.tNow t with
                   error := some e
                   finished_at := some env.tNow
                   status := TaskStatus.queued },
          [t.id], 1, false⟩) ∧
    (¬ (t.attempts.getD 0 + 1) < t.max_attempts.getD 3 →
       execute_task env (some t) =
         ⟨some { claimRunning env.tNow t with
                   error := some e
                   finished_at := some env.tNow
                   status := TaskStatus.failed },
          [], 1, false⟩) := by
  refine ⟨rfl, ?_, ?_⟩ <;> intro hlt <;>
    simp [execute_task, executeFailureHandler, hq, hg, hc1, hc2, hcf, hlt, isTerminal,
      claimRunning]

/-- Witness for C3: a fresh queued task (attempts 0, max_attempts 3) whose
generation fails is re-queued and re-enqueued once. -/
theorem failure_retry_decision_witness :
    execute_task genFailEnv (some freshQueuedTask) =
      ⟨some retryRequeuedRow, [1], 1, false⟩ := by
  have h :=
    (failure_retry_decision genFailEnv freshQueuedTask ("boom") rfl rfl rfl rfl rfl).2.1
      (by decide)
  exact h

/-- C4 counterexample: after the Executor's failure-retry path the task is
back in status queued (non-terminal) while `finished_at` records the failed
attempt, so "finished_at is non-null iff status is terminal" is false after
executor execution. -/
theorem finished_iff_fails_on_retry_requeue :
    (execute_task genFailEnv (some freshQueuedTask)).store = some retryRequeuedRow ∧
    retryRequeuedRow.status = TaskStatus.queued ∧
    retryRequeuedRow.finished_at = some 5 ∧
    ¬ finishedInvFull retryRequeuedRow := by
  refine ⟨by decide, by decide, by decide, ?_⟩
  intro h
  simp [finishedInvFull, retryRequeuedRow, claimRunning, isTerminal] at h

theorem execute_weak_claimPath (env : ExecEnv) (t u : Task)
    (h1 : env.cancel1Stamps = true) (h2 : env.cancel2Stamps = true)
    (hts : t.status = TaskStatus.queued ∨ t.status = TaskStatus.running)
    (hst : (execute_task env (some t)).store = some u) :
    finishedInvWeak u := by
  rcases hts with hts | hts <;> rcases hg : env.gen with text | e <;>
  all_goals (
    cases hc1 : env.cancel1 <;> cases hc2 : env.cancel2 <;>
      cases hcf : env.handlerCommitFails <;>
      simp [execute_task, executeFailureHandler, hts, hg, hc1, hc2, hcf, h1, h2,
        claimRunning, concurrentCancel, stampFinished, completeSuccess, isTerminal,
        apply_ite] at hst <;>
      (try split at hst) <;>
      (first
        | (subst hst; intro hterm2; simp_all [isTerminal])
        | (injection hst with hst; subst hst; intro hterm2; simp_all [isTerminal])))

/-- C4 (amended): the store invariant "finished_at non-null iff status
terminal" is established at creation and preserved by the scheduler's
scheduled-to-queued flip, by the cancel op, and by the retry op; the
Executor, however, only preserves the forward direction (a terminal status
implies finished_at non-null): its failure-retry path re-queues the task
with `finished_at` recording the failed attempt, so the reverse direction
can fail after executor execution (see the counterexample). -/
theorem finished_terminal_invariants :
    (∀ now tid nm pr sf, finishedInvFull (create_task now tid nm pr sf)) ∧
    (∀ t, t.status = TaskStatus.scheduled → finishedInvFull t →
       finishedInvFull { t with status := TaskStatus.queued }) ∧
    (∀ now t, finishedInvFull t → finishedInvFull (cancel_task now t)) ∧
    (∀ p t u l, api_retry_task p t = RetryResult.ok u l → finishedInvFull u) ∧
    (∀ env t u, env.cancel1Stamps = true → env.cancel2Stamps = true →
       finishedInvWeak t → (execute_task env (some t)).store = some u →
       finishedInvWeak u) := by
  refine ⟨?_, ?_, ?_, ?_, ?_⟩
  · intro now tid nm pr sf
    unfold finishedInvFull create_task initial_status
    cases sf with
    | none => simp [isTerminal]
    | some v => by_cases hv : now < v <;> simp [hv, isTerminal]
  · intro t hs h
    unfold finishedInvFull at h ⊢
    rw [hs] at h
    simpa [isTerminal] using h
  · intro now t h
    unfold cancel_task
    split
    · exact h
    · unfold finishedInvFull
      simp [isTerminal]
  · intro p t u l hret
    unfold api_retry_task at hret
    split at hret
    · cases hret
      unfold finishedInvFull
      simp [isTerminal]
    · cases hret
  · intro env t u h1 h2 hw hst
    cases hts : t.status with
    | scheduled =>
      simp [execute_task, hts, isTerminal] at hst
      subst hst
      exact hw
    | completed =>
      simp [execute_task, hts, isTerminal] at hst
      subst hst
      exact hw
    | failed =>
      simp [execute_task, hts, isTerminal] at hst
      subst hst
      exact hw
    | cancelled =>
      simp [execute_task, hts, isTerminal] at hst
      subst hst
      exact hw
    | queued => exact execute_weak_claimPath env t u h1 h2 (Or.inl hts) hst
    | running => exact execute_weak_claimPath env t u h1 h2 (Or.inr hts) hst

/-- Witness for C4 (amended): creation, flip, cancel, retry and a benign
executor run at concrete inputs. -/
theorem finished_terminal_invariants_witness :
    finishedInvFull (create_task 5 1 ("n") ("p") none) ∧
    finishedInvFull (cancel_task 9 freshQueuedTask) ∧
    finishedInvWeak
      (completeSuccess ("MockLLMClient") (some ("mock-llm")) 6 7 ("text")
        (claimRunning 5 freshQueuedTask)) := by
  refine ⟨finished_terminal_invariants.1 5 1 ("n") ("p") none, ?_, ?_⟩
  · refine finished_terminal_invariants.2.2.1 9 freshQueuedTask ?_
    unfold finishedInvFull
    simp [freshQueuedTask, isTerminal]
  · refine finished_terminal_invariants.2.2.2.2 baseEnv freshQueuedTask _ rfl rfl ?_ (by decide)
    intro h
    simp [freshQueuedTask, isTerminal] at h

/-- C7 is a code bug: the queued-to-running transition of `execute_task` is
a plain read followed by an unconditional UPDATE — no row lock and no
compare-and-set — so under the interleaving in which both executors read the
fresh queued row before either commits the claim, both commit it and the
generation capability is invoked twice, although the repository's own test
(`test_execute_task_atomic_claim_prevents_double_run`) asserts it is invoked
exactly once.  The final row still shows completed with `attempts = 1`
because both writers computed the same increment from the same stale read. -/
theorem race_double_generation :
    (runRace ("single run") 5 raceSched raceInit).gens = 2 ∧
    (runRace ("single run") 5 raceSched raceInit).row.status = TaskStatus.completed ∧
    (runRace ("single run") 5 raceSched raceInit).row.attempts = some 1 ∧
    (runRace ("single run") 5 raceSched raceInit).w1.pc = 6 ∧
    (runRace ("single run") 5 raceSched raceInit).w2.pc = 6 := by
  decide

end Orchestrator
